import Mathlib

/-!
Verification of the conversational state and intent-resolution pipeline of a
Telegram finance-notebook bot, against its design specification.

The Python sources are embedded shallowly: pure helper functions become Lean
functions over `List Char` / `String`, monetary amounts become `ℚ`, timestamps
and dates become `Int` (seconds / day numbers), the per-user document becomes
an explicit record that each handler transforms, and the two external
text-generation calls (the intent router and the reply renderer) are
parameterised by the text the service returned (`Option String`, with
`Except` for a raised exception) together with the JSON parse used on it.
-/

namespace FinBot

/-! ## Character and string helpers

Python `str.lower` / `str.upper` restricted to the ASCII and Cyrillic
ranges that actually occur in this codebase, plus `str.strip`, whitespace
collapsing and substring containment (the Python `in` operator). -/

/-- Lower-case one character: ASCII A-Z, Cyrillic А-Я and Ё, as Python
`str.lower` maps the characters used by the sources. -/
def lowerChar (c : Char) : Char :=
  if 65 ≤ c.toNat ∧ c.toNat ≤ 90 then Char.ofNat (c.toNat + 32)
  else if 0x410 ≤ c.toNat ∧ c.toNat ≤ 0x42F then Char.ofNat (c.toNat + 0x20)
  else if c.toNat = 0x401 then Char.ofNat 0x451
  else c

/-- Upper-case one character: inverse of `lowerChar` on the same ranges. -/
def upperChar (c : Char) : Char :=
  if 97 ≤ c.toNat ∧ c.toNat ≤ 122 then Char.ofNat (c.toNat - 32)
  else if 0x430 ≤ c.toNat ∧ c.toNat ≤ 0x44F then Char.ofNat (c.toNat - 0x20)
  else if c.toNat = 0x451 then Char.ofNat 0x401
  else c

/-- Python `str.lower` on the character ranges used by the sources. -/
def lower (s : String) : String := String.mk (s.data.map lowerChar)

/-- Python `str.upper` on the character ranges used by the sources. -/
def upper (s : String) : String := String.mk (s.data.map upperChar)

/-- Python `str.strip` on a character list. -/
def stripL (l : List Char) : List Char :=
  ((l.dropWhile Char.isWhitespace).reverse.dropWhile Char.isWhitespace).reverse

/-- Python `str.strip`. -/
def strip (s : String) : String := String.mk (stripL s.data)

/-- Is `pat` a contiguous sublist of `hay`?  Executable form of the Python
string `in` operator. -/
def containsSubL (pat : List Char) : List Char → Bool
  | [] => pat.isEmpty
  | c :: cs => pat.isPrefixOf (c :: cs) || containsSubL pat cs

/-- Python `pat in hay` for strings. -/
def pyIn (pat hay : String) : Bool := containsSubL pat.data hay.data

/-- Python `any(w in t for w in ws)`. -/
def containsAny (t : String) (ws : List String) : Bool := ws.any fun w => pyIn w t

/-- Collapse whitespace runs to a single space (`re.sub(r"\s+", " ", s)`);
`prev` records whether the previous character was whitespace. -/
def collapseWS (prev : Bool) : List Char → List Char
  | [] => []
  | c :: cs =>
    if c.isWhitespace then
      if prev then collapseWS true cs else ' ' :: collapseWS true cs
    else c :: collapseWS false cs

/-- Python falsy-`or` for an optional string: `x or d` where `None` and the
empty string are falsy. -/
def pyOrS (o : Option String) (d : String) : String :=
  match o with
  | some s => if s = "" then d else s
  | none => d

/-- Python falsy-`or` for a plain string: `s or d`. -/
def strOr (s d : String) : String := if s = "" then d else s

/-- Python truthiness of an optional string. -/
def truthyS (o : Option String) : Bool :=
  match o with
  | some s => s ≠ ""
  | none => false

/-- Numeric value of a list of ASCII digit characters. -/
def natOfDigitsL (l : List Char) : Nat := l.foldl (fun a c => a * 10 + (c.toNat - 48)) 0

/-- Value of a list of fraction digits, as the rational `digits / 10 ^ length`. -/
def fracVal (f : List Char) : ℚ := (natOfDigitsL f : ℚ) / (10 ^ f.length)

/-! ## utils.py -/

/-- utils.clean_text: strip, then collapse internal whitespace runs to a
single space. -/
def clean_text (s : String) : String := String.mk (collapseWS false (stripL s.data))

/-- Value of a match of `\d{1,9}(?:\.\d{1,2})?(?!\d)` whose integer part is
`run` (a maximal digit run) and whose remaining input is `rest`: the
fraction is taken exactly when `rest` starts with `'.'` followed by a
maximal digit run of length 1 or 2 (a longer run makes the trailing
`(?!\d)` fail, so the regex backtracks to the integer part alone). -/
def paValue (run rest : List Char) : ℚ :=
  let iv : ℚ := natOfDigitsL run
  match rest with
  | '.' :: r2 =>
    let f := r2.takeWhile Char.isDigit
    if f.length = 1 ∨ f.length = 2 then iv + fracVal f else iv
  | _ => iv

/-- Left-to-right scan of `re.search(r"(?<!\d)(\d{1,9}(?:\.\d{1,2})?)(?!\d)", t)`:
a match can only start at the head of a maximal digit run (the look-behind
rejects positions inside a run), a run of more than 9 digits can never be
matched (every split leaves a digit adjacent to the match), and the first
run of at most 9 digits wins.  `prev` records whether the previous
character was a digit. -/
def scanPA (prev : Bool) : List Char → Option ℚ
  | [] => none
  | c :: cs =>
    if c.isDigit then
      if prev then scanPA true cs
      else
        let run := c :: cs.takeWhile Char.isDigit
        if run.length ≤ 9 then some (paValue run (cs.dropWhile Char.isDigit))
        else scanPA true cs
    else scanPA false cs

/-- utils.parse_amount: replace every `','` by `'.'`, then search for the
first standalone 1-9 digit number with an optional 1-2 digit fraction. -/
def parse_amount (text : String) : Option ℚ :=
  scanPA false (text.data.map fun c => if c = ',' then '.' else c)

/-- utils.parse_days: the `(\d{1,3})\s*(дн|дня|дней|day|days)` part. Does the
input begin, after optional whitespace, with one of the unit alternatives
(`"дн"` and `"day"` are prefixes of all six)? -/
def daysUnitHere (l : List Char) : Bool :=
  let r := l.dropWhile Char.isWhitespace
  "дн".data.isPrefixOf r || "day".data.isPrefixOf r

/-- One attempt of `(\d{1,3})\s*(дн|...)` at the current position with an
integer part of exactly `k` digits. -/
def tryDays (l : List Char) (k : Nat) : Option Nat :=
  let ds := l.take k
  if ds.length = k && ds.all Char.isDigit && daysUnitHere (l.drop k) then
    some (natOfDigitsL ds)
  else none

/-- Left-to-right, greedy (3 then 2 then 1 digits) scan for
`(\d{1,3})\s*(дн|дня|дней|day|days)`. -/
def daysRegexScan : List Char → Option Nat
  | [] => none
  | c :: cs =>
    match tryDays (c :: cs) 3 with
    | some n => some n
    | none =>
      match tryDays (c :: cs) 2 with
      | some n => some n
      | none =>
        match tryDays (c :: cs) 1 with
        | some n => some n
        | none => daysRegexScan cs

/-- utils.parse_days. -/
def parse_days (text : String) : Option Int :=
  let t := lower text
  if pyIn "недел" t || pyIn "week" t then some 7
  else if pyIn "месяц" t || pyIn "month" t then some 30
  else
    match daysRegexScan t.data with
    | some n => some (max 1 (min 365 (n : Int)))
    | none => none

/-- utils.is_income_phrase. -/
def is_income_phrase (t : String) : Bool :=
  containsAny (lower t) ["доход", "income", "получил", "заработал", "paid", "got paid"]

/-- utils.is_expense_phrase. -/
def is_expense_phrase (t : String) : Bool :=
  containsAny (lower t)
    ["расход", "потрат", "spent", "expense", "купил", "buy", "coffee", "кофе", "бензин", "gas", "diesel"]

/-- utils.is_debt_phrase. -/
def is_debt_phrase (t : String) : Bool :=
  containsAny (lower t) ["долг", "debt", "на долг", "в долг", "loan"]

/-- utils.is_pay_debt_phrase. -/
def is_pay_debt_phrase (t : String) : Bool :=
  containsAny (lower t) ["оплат", "погас", "вернул", "paid debt", "pay debt", "закрыл долг"]

/-! ## parser.py -/

/-- The part of a `[\$]?\d+(?:[.,]\d{1,2})?` match after the integer digit
run: if a `.`/`,` separator followed by at least one digit comes next, the
greedy optional fraction group consumes the separator and the first
`min 2 M` fraction digits (there is no trailing look-ahead, so surplus
fraction digits stay in the input); otherwise nothing more is consumed. -/
def afterSep (rest : List Char) : List Char :=
  match rest with
  | [] => []
  | sep :: r =>
    if (sep = '.' || sep = ',') && 1 ≤ (r.takeWhile Char.isDigit).length then
      r.drop (min 2 (r.takeWhile Char.isDigit).length)
    else sep :: r

/-- The suffix left after one match of `[\$]?\d+(?:[.,]\d{1,2})?` whose digit
part starts at the head of `l`: drop the maximal digit run, then apply the
optional fraction group. -/
def afterNum (l : List Char) : List Char := afterSep (l.dropWhile Char.isDigit)

/-- Fuel-indexed worker for `subMoney`: every step either finishes or
consumes at least one character before recursing, so with the input's
length as fuel the `0` case is never reached; the fuel only makes the
recursion structural. -/
def subMoneyF (rep : List Char) : Nat → List Char → List Char
  | _, [] => []
  | 0, l => l
  | Nat.succ fuel, c :: cs =>
    if c = '$' then
      match cs with
      | d :: ds =>
        if d.isDigit then rep ++ subMoneyF rep fuel (afterNum (d :: ds))
        else c :: subMoneyF rep fuel (d :: ds)
      | [] => [c]
    else if c.isDigit then rep ++ subMoneyF rep fuel (afterNum (c :: cs))
    else c :: subMoneyF rep fuel cs

/-- The scan of `re.sub(r"[\$]?\d+(?:[.,]\d{1,2})?", rep, text)`, left to right; a
match starts at a digit, or at a `'$'` immediately followed by a digit. -/
def subMoney (rep : List Char) (l : List Char) : List Char := subMoneyF rep l.length l

/-- Value of a match of `(?P<cur>\$)?\s*(?P<num>\d+(?:[.,]\d{1,2})?)` whose
`num` group starts with the maximal digit run `run` and is followed by
`rest`: `\d+` takes the whole run and the greedy optional fraction takes a
`.`/`,` separator plus up to the first two following digits. -/
def eaValue (run rest : List Char) : ℚ :=
  let iv : ℚ := natOfDigitsL run
  match rest with
  | sep :: r2 =>
    if sep = '.' || sep = ',' then
      let f := (r2.takeWhile Char.isDigit).take 2
      if 1 ≤ f.length then iv + fracVal f else iv
    else iv
  | [] => iv

/-- Scan for the first digit of the text: since `(\$)?\s*` can match empty,
the leftmost match of `MONEY_RE` always captures the digit run starting at
the text's first digit. -/
def scanEA : List Char → Option ℚ
  | [] => none
  | c :: cs =>
    if c.isDigit then some (eaValue (c :: cs.takeWhile Char.isDigit) (cs.dropWhile Char.isDigit))
    else scanEA cs

/-- parser._extract_amount: first match of `MONEY_RE`, `','` accepted as the
decimal separator (`raw.replace(",", ".")` before `float`). -/
def extract_amount (text : String) : Option ℚ := scanEA text.data

/-- parser.INCOME_WORDS. -/
def INCOME_WORDS : List String :=
  ["пришло", "получил", "получила", "заработал", "заработала",
   "доход", "поступило", "оплатили", "перевели", "платеж пришел"]

/-- parser.EXPENSE_WORDS. -/
def EXPENSE_WORDS : List String :=
  ["потратил", "потратила", "купил", "купила", "заплатил", "заплатила",
   "расход", "оплатил", "оплатила", "списали"]

/-- parser.SHOW_WORDS. -/
def SHOW_WORDS : List String :=
  ["покажи", "показать", "сводка", "итоги", "сколько", "посчитай", "дай"]

/-- parser.DELETE_ALL_WORDS. -/
def DELETE_ALL_WORDS : List String :=
  ["удали всё", "удали все", "удалить всё", "удалить все", "очисти всё",
   "очисти все", "удалить аккаунт", "стереть всё", "стереть все"]

/-- parser.CATEGORY_HINTS (insertion order preserved, as in a Python dict). -/
def CATEGORY_HINTS : List (String × List String) :=
  [("топливо", ["топливо", "бенз", "бензин", "дизел", "дизель", "fuel", "gas"]),
   ("еда", ["еда", "кафе", "бургер", "бургеры", "мак", "mcdonald", "restaurant",
            "ресторан", "coffee", "кофе"]),
   ("коммуналка", ["счет", "счёт", "bill", "water", "electric", "gas bill",
                   "интернет", "phone", "телефон", "вода", "электр"]),
   ("кредит", ["кредит", "loan", "платеж", "платёж", "car payment", "машина в кредит"]),
   ("страховка", ["страхов", "insurance"])]

/-- The membership test of parse_intent's first branch:
`any(w in t for w in DELETE_ALL_WORDS)`. -/
def deleteAllHit (t : String) : Bool := containsAny t DELETE_ALL_WORDS

/-- The test of parse_intent's second branch:
`"да, удали всё" in t or "да, удали все" in t`. -/
def confirmHit (t : String) : Bool := pyIn "да, удали всё" t || pyIn "да, удали все" t

/-- The test of parse_intent's show branch: `any(w in t for w in SHOW_WORDS)`. -/
def showHit (t : String) : Bool := containsAny t SHOW_WORDS

/-- parser._guess_type: income keywords, then expense keywords, defaulting to
`"expense"` ("по умолчанию расход"). -/
def guess_type (text : String) : String :=
  let t := lower text
  if containsAny t INCOME_WORDS then "income"
  else if containsAny t EXPENSE_WORDS then "expense"
  else "expense"

/-- parser._guess_category: keyword hints first; otherwise strip money tokens
(replaced by a space), collapse whitespace, drop stop words and keep the
first three remaining words. -/
def guess_category (text : String) : String :=
  let t := lower text
  match CATEGORY_HINTS.findSome?
      (fun p => if p.2.any (fun h => pyIn h t) then some p.1 else none) with
  | some cat => cat
  | none =>
    let cleaned := stripL (collapseWS false (subMoney [' '] text.data))
    if cleaned.isEmpty then "other"
    else
      let words := (String.mk cleaned).splitOn " "
      let stop := SHOW_WORDS ++ ["за", "на", "по", "в", "во", "этот", "эту", "эти",
                                 "прошлый", "прошлую", "прошлое"]
      let ws := words.filter fun w => !(stop.contains (lower w))
      if ws.isEmpty then "other" else String.intercalate " " (ws.take 3)

/-! Dates for parser._parse_period: a `datetime.date` is embedded as its
proleptic-Gregorian day number (days since 1970-01-01), so that `timedelta`
arithmetic is integer arithmetic; "today" is supplied to `parse_intent` as a
civil `(year, month, day)` triple, standing for `datetime.now().date()`. -/

/-- Day number (days since 1970-01-01) of a civil date, via the standard
era/year-of-era decomposition. -/
def daysFromCivil (y m d : Int) : Int :=
  let y' := if m ≤ 2 then y - 1 else y
  let era := Int.fdiv y' 400
  let yoe := y' - era * 400
  let mp := if m > 2 then m - 3 else m + 9
  let doy := Int.fdiv (153 * mp + 2) 5 + d - 1
  let doe := yoe * 365 + Int.fdiv yoe 4 - Int.fdiv yoe 100 + doy
  era * 146097 + doe - 719468

/-- Python `datetime.date` leap-year rule. -/
def isLeap (y : Int) : Bool := (y % 4 = 0 && y % 100 ≠ 0) || y % 400 = 0

/-- Days in a month, as validated by the `datetime.date` constructor. -/
def daysInMonth (y m : Int) : Int :=
  if m = 1 ∨ m = 3 ∨ m = 5 ∨ m = 7 ∨ m = 8 ∨ m = 10 ∨ m = 12 then 31
  else if m = 4 ∨ m = 6 ∨ m = 9 ∨ m = 11 then 30
  else if isLeap y then 29 else 28

/-- Does `date(y, m, d)` construct without raising `ValueError`?  (The years
matched by the regex are 20xx, inside `datetime`'s year range.) -/
def isValidDate (y m d : Int) : Bool :=
  1 ≤ m && m ≤ 12 && 1 ≤ d && d ≤ daysInMonth y m

/-- A word character for the `\b` boundaries of the date regexes: Python
`\w` restricted to ASCII alphanumerics, `'_'`, and the Cyrillic block used
by this bot's inputs. -/
def wordChar (c : Char) : Bool :=
  c.isAlphanum || c = '_' || (0x400 ≤ c.toNat && c.toNat ≤ 0x4FF)

/-- Integer value of a digit-character list. -/
def digitsVal (l : List Char) : Int := (natOfDigitsL l : Int)

/-- Shape test for `20\d{2}-\d{2}-\d{2}` at the head of the input, returning
the captured `(y, mo, da)` and the remaining suffix. -/
def dateShape1 (l : List Char) : Option ((Int × Int × Int) × List Char) :=
  match l with
  | c0 :: c1 :: c2 :: c3 :: c4 :: c5 :: c6 :: c7 :: c8 :: c9 :: rest =>
    if c0 = '2' && c1 = '0' && c2.isDigit && c3.isDigit && c4 = '-' && c5.isDigit &&
        c6.isDigit && c7 = '-' && c8.isDigit && c9.isDigit then
      some ((digitsVal [c0, c1, c2, c3], digitsVal [c5, c6], digitsVal [c8, c9]), rest)
    else none
  | _ => none

/-- Shape test for `20\d{2}-\d{2}` at the head of the input. -/
def dateShape2 (l : List Char) : Option ((Int × Int) × List Char) :=
  match l with
  | c0 :: c1 :: c2 :: c3 :: c4 :: c5 :: c6 :: rest =>
    if c0 = '2' && c1 = '0' && c2.isDigit && c3.isDigit && c4 = '-' && c5.isDigit &&
        c6.isDigit then
      some ((digitsVal [c0, c1, c2, c3], digitsVal [c5, c6]), rest)
    else none
  | _ => none

/-- The trailing `\b`: end of input or a non-word character. -/
def boundaryAfter (rest : List Char) : Bool :=
  match rest with
  | [] => true
  | c :: _ => !wordChar c

/-- The scan of `re.search(r"\b(20\d{2})-(\d{2})-(\d{2})\b", t)`: try every position whose
preceding character is not a word character. -/
def dateScan1 (prevWord : Bool) : List Char → Option (Int × Int × Int)
  | [] => none
  | c :: cs =>
    match
      (if prevWord then none
       else
         match dateShape1 (c :: cs) with
         | some (v, rest) => if boundaryAfter rest then some v else none
         | none => none) with
    | some v => some v
    | none => dateScan1 (wordChar c) cs

/-- The scan of `re.search(r"\b(20\d{2})-(\d{2})\b", t)`. -/
def dateScan2 (prevWord : Bool) : List Char → Option (Int × Int)
  | [] => none
  | c :: cs =>
    match
      (if prevWord then none
       else
         match dateShape2 (c :: cs) with
         | some (v, rest) => if boundaryAfter rest then some v else none
         | none => none) with
    | some v => some v
    | none => dateScan2 (wordChar c) cs

/-- Zero-padded two-digit rendering (`{:02d}`) of a small nonnegative value. -/
def pad2 (n : Int) : String := if n < 10 then "0" ++ toString n else toString n

/-- parser._parse_period: returns `(d1, d2, label)` as day numbers plus the
label string, or `none`. -/
def parse_period (today : Int × Int × Int) (text : String) : Option (Int × Int × String) :=
  let t := lower text
  let d0 := daysFromCivil today.1 today.2.1 today.2.2
  if pyIn "сегодня" t then some (d0, d0, "сегодня")
  else if pyIn "вчера" t then some (d0 - 1, d0 - 1, "вчера")
  else if pyIn "за неделю" t || pyIn "последнюю неделю" t || pyIn "последние 7" t ||
      pyIn "за 7" t then some (d0 - 6, d0, "за неделю")
  else if pyIn "за месяц" t || pyIn "последний месяц" t || pyIn "последние 30" t ||
      pyIn "за 30" t then some (d0 - 29, d0, "за месяц")
  else
    match dateScan1 false t.data with
    | some (y, mo, da) =>
      if isValidDate y mo da then
        some (daysFromCivil y mo da, daysFromCivil y mo da,
              toString y ++ "-" ++ pad2 mo ++ "-" ++ pad2 da)
      else none
    | none =>
      match dateScan2 false t.data with
      | some (y, mo) =>
        if isValidDate y mo 1 then
          let d1 := daysFromCivil y mo 1
          let d2 := if mo = 12 then daysFromCivil y 12 31 else daysFromCivil y (mo + 1) 1 - 1
          some (d1, d2, toString y ++ "-" ++ pad2 mo)
        else none
      | none =>
        if pyIn "за год" t || pyIn "за этот год" t then
          some (daysFromCivil today.1 1 1, daysFromCivil today.1 12 31,
                toString today.1 ++ " год")
        else none

/-- The payload dictionary a parser.Intent carries: every key that any branch
of parse_intent can set, absent keys being `none`. -/
structure PIPayload where
  type : Option String := none
  amount : Option ℚ := none
  currency : Option String := none
  category : Option String := none
  note : Option String := none
  date_from : Option Int := none
  date_to : Option Int := none
  period_label : Option String := none
deriving DecidableEq, Repr

/-- parser.Intent. -/
structure Intent where
  name : String
  payload : PIPayload
  needs_clarification : Bool := false
  clarification_question : String := ""
deriving DecidableEq, Repr

/-- parser.parse_intent, with "today" supplied as a civil date triple. -/
def parse_intent (today : Int × Int × Int) (text0 : String) : Intent :=
  let text := strip text0
  let t := lower text
  if deleteAllHit t then
    { name := "delete_all_request", payload := {}, needs_clarification := true,
      clarification_question := "⚠️ Это удалит ВСЕ твои записи и настройки без восстановления. Напиши: «ДА, УДАЛИ ВСЁ» для подтверждения." }
  else if confirmHit t then
    { name := "delete_all_confirmed", payload := {} }
  else if showHit t then
    let cat := guess_category text
    match parse_period today text with
    | some (d1, d2, label) =>
      { name := "show_summary",
        payload := { category := some cat, date_from := some d1, date_to := some d2,
                     period_label := some label } }
    | none =>
      let d0 := daysFromCivil today.1 today.2.1 today.2.2
      { name := "show_summary",
        payload := { category := some cat, date_from := some (d0 - 6), date_to := some d0,
                     period_label := some "за неделю" } }
  else
    match extract_amount text with
    | some amount =>
      let cleaned := stripL (subMoney [] text.data)
      if cleaned.isEmpty then
        { name := "clarify_transaction", payload := { amount := some amount },
          needs_clarification := true,
          clarification_question := "Это расход или доход? Скажи одним словом: «расход» или «доход»." }
      else
        { name := "add_transaction",
          payload := { type := some (guess_type text), amount := some amount,
                       currency := some "USD", category := some (guess_category text),
                       note := some text } }
    | none =>
      { name := "unknown", payload := {} }

/-! ## router_fallback.py -/

/-- The HELP / greetings keyword test of FallbackRouter.route. -/
def helpHit (tl : String) : Bool :=
  containsAny tl ["что ты умеешь", "помощь", "help", "команды", "что можешь",
                  "как дела", "привет", "hello", "hi", "ку", "куку", "ау"]

/-- The DELETE test of FallbackRouter.route: a delete verb and a data/account
object must both occur. -/
def deleteHit (tl : String) : Bool :=
  containsAny tl ["удали", "удалить", "стер", "сотри", "delete", "remove",
                  "очисти", "wipe", "erase"] &&
  containsAny tl ["данные", "всё", "аккаунт", "account", "data", "history"]

/-- The SHOW keyword test of FallbackRouter.route. -/
def showHitFB (tl : String) : Bool :=
  containsAny tl ["покажи", "показать", "show", "list", "выведи", "посмотреть",
                  "какие расходы", "какие доходы"]

/-- The SUMMARY keyword test of FallbackRouter.route. -/
def summaryHitFB (tl : String) : Bool :=
  containsAny tl ["сводка", "итого", "итоги", "summary", "total", "отчет", "отчёт"]

/-- The ADVICE keyword test of FallbackRouter.route. -/
def adviceHitFB (tl : String) : Bool :=
  containsAny tl ["совет", "как экономить", "как сэкономить", "подскажи",
                  "advice", "tips", "бюджет"]

/-- router_fallback.Route (the `Intent` literal type becomes the string it
holds). -/
structure Route where
  intent : String
  kind : Option String := none
  amount : Option ℚ := none
  days : Option Int := none
  note : Option String := none
deriving DecidableEq, Repr

/-- router_fallback.FallbackRouter.route. -/
def FallbackRouter.route (text : String) : Route :=
  let t := clean_text text
  let tl := lower t
  if helpHit tl then { intent := "HELP" }
  else if deleteHit tl then { intent := "DELETE_DATA" }
  else if showHitFB tl then { intent := "SHOW", days := some ((parse_days t).getD 7) }
  else if summaryHitFB tl then { intent := "SUMMARY", days := some ((parse_days t).getD 7) }
  else if adviceHitFB tl then { intent := "ADVICE" }
  else
    match parse_amount t with
    | some amt =>
      if is_pay_debt_phrase t then
        { intent := "LOG", kind := some "pay_debt", amount := some amt, note := some t }
      else if is_debt_phrase t then
        { intent := "LOG", kind := some "debt", amount := some amt, note := some t }
      else if is_income_phrase t then
        { intent := "LOG", kind := some "income", amount := some amt, note := some t }
      else if is_expense_phrase t then
        { intent := "LOG", kind := some "expense", amount := some amt, note := some t }
      else
        { intent := "LOG", kind := some "expense", amount := some amt, note := some t }
    | none => { intent := "UNKNOWN" }

/-! ## router_llm.py

`route_message` builds a prompt and calls the external text-generation
service; everything up to and including the service call is opaque I/O, so
the function is embedded as its post-processing of the service response:
`outputText` is `resp.output_text` (absent attribute or `None` becomes
`none`) and `loads` is the result of `json.loads` on a given string
(`none` when `json.loads` raises). -/

/-- A parsed JSON value, the result type of `json.loads`. -/
inductive Json where
  | null : Json
  | bool : Bool → Json
  | num : ℚ → Json
  | str : String → Json
  | arr : List Json → Json
  | obj : List (String × Json) → Json

/-- Python `obj.get(k)` on a JSON object's key-value list. -/
def jsonGet (kvs : List (String × Json)) (k : String) : Option Json :=
  kvs.findSome? fun kv => if kv.1 = k then some kv.2 else none

/-- The string under key `k` if the value is an object holding a string
there; `none` otherwise. -/
def lookupStrField (j : Json) (k : String) : Option String :=
  match j with
  | Json.obj kvs =>
    match jsonGet kvs k with
    | some (Json.str s) => some s
    | _ => none
  | _ => none

/-- The hard-coded safe-default dictionary of router_llm.route_message,
returned both when the service output is falsy and when `json.loads`
raises. -/
def routerFallbackJson : Json :=
  Json.obj
    [("action", Json.str "unknown"),
     ("reply", Json.str "I’m not sure. Do you want to add an expense/income, or see a summary?"),
     ("language_set", Json.null),
     ("base_currency_set", Json.null),
     ("period", Json.null),
     ("transaction", Json.null),
     ("reminder", Json.null)]

/-- router_llm.route_message, post-service: falsy output text or a
`json.loads` failure yields the safe default; any successfully parsed JSON
value is returned as-is. -/
def route_message (outputText : Option String) (loads : String → Option Json) : Json :=
  match outputText with
  | none => routerFallbackJson
  | some txt =>
    if txt = "" then routerFallbackJson
    else
      match loads txt with
      | some data => data
      | none => routerFallbackJson

/-! ## brain.py and storage.py

The conversation controller.  Timestamps are `Int` seconds; the per-user
Firestore document becomes the record `UserDoc`; the intent router's JSON
reply (an LLM call) is the input `RouteMsg`; each `render_reply(...)` call
site returns a `Reply.rendered` descriptor carrying exactly the language,
action name and data dictionary passed to the renderer (the renderer
itself only formats and never touches state, see `render_reply` below). -/

/-- The transaction payload brain.handle_message persists, plus the creation
timestamp that the storage layer assigns on append.  Every key of the
Python payload dict is always set, which is why no field is optional. -/
structure Tx where
  type : String
  amount : ℚ
  currency : String
  base_currency : String
  amount_in_base : Option ℚ
  category : String
  description : String
  language : String
  created_at : Int
deriving DecidableEq, Repr

/-- The reduced per-transaction dictionary built in the show_list branch. -/
structure SimpleTx where
  type : String
  amount : ℚ
  currency : String
  category : String
  description : String
deriving DecidableEq, Repr

/-- A value of the data dictionary handed to the reply renderer. -/
inductive RVal where
  | str : String → RVal
  | num : ℚ → RVal
  | int : Int → RVal
  | bool : Bool → RVal
  | items : List SimpleTx → RVal
  | currencyMap : List (String × ℚ) → RVal
deriving DecidableEq, Repr

/-- The outcome of one turn: either a `render_reply(language, action, data)`
call, or a string returned directly (the router's clarifying question). -/
inductive Reply where
  | rendered : String → String → List (String × RVal) → Reply
  | raw : String → Reply
deriving DecidableEq, Repr

/-- The `args` dictionary of the intent router's JSON reply: every key any
handler reads, absent keys being `none` (`confirm` is read through
`bool(args.get("confirm") or False)`, hence plain `Bool`). -/
structure Args where
  amount : Option ℚ := none
  currency : Option String := none
  category : Option String := none
  description : Option String := none
  note : Option String := none
  confirm : Bool := false
  period : Option String := none
  kind : Option String := none
  limit : Option Int := none
  language_mode : Option String := none
  language : Option String := none
  base_currency : Option String := none
deriving DecidableEq, Repr

/-- The intent router's reply as consumed by brain.handle_message
(`route.get(...)` with falsy defaults). -/
structure RouteMsg where
  language : Option String := none
  intent : Option String := none
  args : Args := {}
  needs_clarification : Bool := false
  clarifying_question : Option String := none
deriving DecidableEq, Repr

/-- The per-user document: settings, the single pending-action slot (brain
only ever stores `{"type": "delete_account_wait_phrase"}` in it, so the
slot is embedded as the optional value of that `"type"` key), the
deletion-cooldown timestamp and the transaction ledger. -/
structure UserDoc where
  language_mode : Option String := none
  language_fixed : Option String := none
  base_currency : Option String := none
  pending : Option String := none
  last_delete_at : Option Int := none
  tx : List Tx := []
deriving DecidableEq, Repr

/-- brain._normalize_currency: strip/upper then the small fixed lookup
table; unmapped values pass through unchanged, empty becomes `"USD"`. -/
def normalize_currency (cur : String) : String :=
  let c := upper (strip cur)
  if c = "ДОЛЛАР" then "USD"
  else if c = "ДОЛЛАРЫ" then "USD"
  else if c = "USD" then "USD"
  else if c = "EUR" then "EUR"
  else if c = "ЕВРО" then "EUR"
  else if c = "GBP" then "GBP"
  else if c = "РУБ" then "RUB"
  else if c = "RUB" then "RUB"
  else if c = "ТЕНГЕ" then "KZT"
  else if c = "KZT" then "KZT"
  else if c = "" then "USD"
  else c

/-- brain._period_to_range over `Int` seconds (`now` is `_utc_now()`). -/
def period_to_range (period : String) (now : Int) : Int × Int × String :=
  let p := strip (lower period)
  if p = "day" then (now - 86400, now, "last day")
  else if p = "week" then (now - 7 * 86400, now, "last week")
  else if p = "month" then (now - 30 * 86400, now, "last month")
  else if p = "year" then (now - 365 * 86400, now, "last year")
  else (now - 7 * 86400, now, "last week")

/-- storage.Storage.can_delete_account: `(True, 0)` when no deletion is
recorded or at least 24 hours have elapsed; otherwise `(False, wait)` with
the remaining wait in whole seconds. -/
def can_delete_account (last : Option Int) (now : Int) : Bool × Int :=
  match last with
  | none => (true, 0)
  | some l =>
    let diff := now - l
    if 86400 ≤ diff then (true, 0) else (false, 86400 - diff)

/-- The user document after `set_delete_cooldown` plus
`delete_account_everything`, following storage.delete_user_everything: the
`tx` subcollection is deleted and the document is reset to defaults keeping
only the deletion timestamp (which both calls set to the current time). -/
def deletedDoc (now : Int) : UserDoc :=
  { language_mode := none, language_fixed := none, base_currency := none,
    pending := none, last_delete_at := some now, tx := [] }

/-- Modelled from the spec: brain.handle_message calls
`storage.query_by_ts_range(user_id, start_dt, end_dt)`, whose implementation
is not among the sources; per §6 (`list_transactions(id, range, filters)`)
it returns the user's transactions whose creation timestamp lies in the
closed range. -/
def query_by_ts_range (st : UserDoc) (startTs endTs : Int) : List Tx :=
  st.tx.filter fun tx => startTs ≤ tx.created_at && tx.created_at ≤ endTs

/-- Modelled from the spec: brain.handle_message calls
`storage.list_transactions(user_id, limit=limit)`, whose implementation is
not among the sources; per §6 and the source iteration's
`order_by created_at DESC / limit` query it returns at most `limit`
transactions, most recent first. -/
def list_transactions (st : UserDoc) (limit : Int) : List Tx :=
  st.tx.reverse.take limit.toNat

/-- The show_list limit computation:
`limit = int(args.get("limit") or 20); limit = max(1, min(limit, 50))`
(`0` is falsy, so it also falls back to 20). -/
def clampLimit (a : Option Int) : Int :=
  let l : Int :=
    match a with
    | none => 20
    | some v => if v = 0 then 20 else v
  max 1 (min l 50)

/-- Add `v` to the entry of `k` in a Python-dict-like association list
(`excluded[cur] = excluded.get(cur, 0.0) + amt`), keeping insertion order. -/
def upsertAdd (m : List (String × ℚ)) (k : String) (v : ℚ) : List (String × ℚ) :=
  match m with
  | [] => [(k, v)]
  | (k', v') :: rest => if k' = k then (k', v' + v) :: rest else (k', v') :: upsertAdd rest k v

/-- One iteration of the show_summary loop over `(inc, exp, excluded)`. -/
def sumStep (base : String) (acc : ℚ × ℚ × List (String × ℚ)) (tx : Tx) :
    ℚ × ℚ × List (String × ℚ) :=
  let ttype := lower (strOr tx.type "expense")
  let cur := strOr tx.currency base
  match tx.amount_in_base with
  | none => (acc.1, acc.2.1, upsertAdd acc.2.2 cur tx.amount)
  | some ab => if ttype = "income" then (acc.1 + ab, acc.2.1, acc.2.2)
               else (acc.1, acc.2.1 + ab, acc.2.2)

/-- The show_summary accumulation: income and expense totals in the base
currency plus the per-currency map of excluded (unconverted) amounts. -/
def summaryFold (base : String) (items : List Tx) : ℚ × ℚ × List (String × ℚ) :=
  items.foldl (sumStep base) (0, 0, [])

/-- One iteration of the show_category loop over `(total, excluded)`. -/
def catStep (base cat kind : String) (acc : ℚ × List (String × ℚ)) (tx : Tx) :
    ℚ × List (String × ℚ) :=
  let ttype := lower (strOr tx.type "expense")
  let tx_cat := lower (strip (strOr tx.category "other"))
  let cur := strOr tx.currency base
  if tx_cat ≠ cat then acc
  else if (kind = "expense" || kind = "income") && ttype ≠ kind then acc
  else
    match tx.amount_in_base with
    | none => (acc.1, upsertAdd acc.2 cur tx.amount)
    | some ab => (acc.1 + ab, acc.2)

/-- The show_category accumulation. -/
def categoryFold (base cat kind : String) (items : List Tx) : ℚ × List (String × ℚ) :=
  items.foldl (catStep base cat kind) (0, [])

/-- brain.render_reply, post-service.  The function body wraps only the
JSON handling in `try`; the service call itself is outside it, so a raised
service exception propagates (`Except.error`).  On success, falsy or
unparseable output text, a non-object value, a missing/falsy `"text"` key
or a non-string value there (whose `.strip()` raises inside the `try`)
all collapse to the fixed string `"OK."`. -/
def render_reply (language action : String) (data : List (String × RVal))
    (svc : Except Unit (Option String)) (loads : String → Option Json) : Except Unit String :=
  match svc with
  | Except.error e => Except.error e
  | Except.ok outputText =>
    let txt := strip (pyOrS outputText "")
    match loads txt with
    | none => Except.ok "OK."
    | some obj =>
      match obj with
      | Json.obj kvs =>
        match jsonGet kvs "text" with
        | some (Json.str s) => Except.ok (strOr (strip s) "OK.")
        | _ => Except.ok "OK."
      | _ => Except.ok "OK."

/-- The `reply_lang` choice of brain.handle_message. -/
def replyLangFor (st : UserDoc) (route : RouteMsg) : String :=
  let language_mode := lower (strip (pyOrS st.language_mode "auto"))
  let detected_lang := strip (pyOrS route.language "en")
  match st.language_fixed with
  | some lf => if language_mode = "fixed" && lf ≠ "" then lf else detected_lang
  | none => detected_lang

/-- The fully populated transaction payload the log_expense / log_income
branch persists (every key of the Python dict is always set), with the
creation timestamp the storage layer assigns. -/
def logPayload (st : UserDoc) (text : String) (route : RouteMsg) (now : Int) (amt : ℚ) : Tx :=
  let intent := pyOrS route.intent "unknown"
  let args := route.args
  let base_currency := pyOrS st.base_currency "USD"
  let cur := normalize_currency (pyOrS args.currency base_currency)
  { type := if intent = "log_expense" then "expense" else "income",
    amount := amt, currency := cur, base_currency := base_currency,
    amount_in_base := if cur = base_currency then some amt else none,
    category := lower (strip (pyOrS args.category "other")),
    description := strip (pyOrS args.description (pyOrS args.note text)),
    language := replyLangFor st route, created_at := now }

/-- brain.Brain.handle_message for one turn: the stored user document, the
raw message text, the intent router's reply and the current time go in; the
updated document and the reply action come out.  `ensure_user` is the
identity here because the document is the state itself. -/
def handle_message (st : UserDoc) (text : String) (route : RouteMsg) (now : Int) :
    UserDoc × Reply :=
  let detected_lang := strip (pyOrS route.language "en")
  let intent := pyOrS route.intent "unknown"
  let args := route.args
  let clar_q := pyOrS route.clarifying_question ""
  let reply_lang := replyLangFor st route
  -- Pending confirmations (delete_account)
  if st.pending = some "delete_account_wait_phrase" then
    if pyIn "DELETE MY ACCOUNT" text then
      let cd := can_delete_account st.last_delete_at now
      if !cd.1 && cd.2 ≠ 0 then
        ({ st with pending := none },
         Reply.rendered reply_lang "delete_account_blocked"
           [("hours", RVal.int (cd.2 / 3600)), ("minutes", RVal.int (cd.2 % 3600 / 60))])
      else
        (deletedDoc now, Reply.rendered reply_lang "delete_account_done" [])
    else
      (st, Reply.rendered reply_lang "delete_account_need_phrase" [])
  -- If base currency not set -> we prioritize asking/setting it
  else if !truthyS st.base_currency && intent ≠ "set_base_currency" then
    (st, Reply.rendered reply_lang "ask_base_currency" [])
  -- Handle: set_language
  else if intent = "set_language" then
    let mode := lower (strip (pyOrS args.language_mode ""))
    let lang := strip (pyOrS args.language "")
    if mode = "auto" || lower lang = "auto" then
      ({ st with language_fixed := none, language_mode := some "auto" },
       Reply.rendered detected_lang "language_set_auto" [])
    else if lang = "" then
      (st, Reply.rendered reply_lang "need_language_name" [])
    else
      ({ st with language_fixed := some lang, language_mode := some "fixed" },
       Reply.rendered lang "language_set_fixed" [("language", RVal.str lang)])
  -- Handle: set_base_currency
  else if intent = "set_base_currency" then
    let cur := normalize_currency (pyOrS args.currency (pyOrS args.base_currency text))
    if cur = "" || cur.length < 3 then
      (st, Reply.rendered reply_lang "need_currency" [])
    else
      ({ st with base_currency := some cur },
       Reply.rendered reply_lang "base_currency_set" [("base_currency", RVal.str cur)])
  -- Handle: delete_account (first step)
  else if intent = "delete_account" then
    if args.confirm then
      let cd := can_delete_account st.last_delete_at now
      if !cd.1 && cd.2 ≠ 0 then
        (st, Reply.rendered reply_lang "delete_account_blocked"
           [("hours", RVal.int (cd.2 / 3600)), ("minutes", RVal.int (cd.2 % 3600 / 60))])
      else
        (deletedDoc now, Reply.rendered reply_lang "delete_account_done" [])
    else
      ({ st with pending := some "delete_account_wait_phrase" },
       Reply.rendered reply_lang "delete_account_confirm" [])
  -- Clarification from router
  else if route.needs_clarification then
    (st, if clar_q ≠ "" then Reply.raw clar_q else Reply.rendered reply_lang "clarify_generic" [])
  else
    -- Ensure base_currency after possible set
    let base_currency := pyOrS st.base_currency "USD"
    -- Handle: log_expense / log_income
    if intent = "log_expense" || intent = "log_income" then
      match args.amount with
      | none => (st, Reply.rendered reply_lang "need_amount" [])
      | some amt =>
        let cur := normalize_currency (pyOrS args.currency base_currency)
        let cat := lower (strip (pyOrS args.category "other"))
        let desc := strip (pyOrS args.description (pyOrS args.note text))
        let amount_in_base := if cur = base_currency then some amt else none
        let p : Tx := logPayload st text route now amt
        ({ st with tx := st.tx ++ [p] },
         Reply.rendered reply_lang "logged"
           [("type", RVal.str p.type), ("amount", RVal.num amt),
            ("currency", RVal.str cur), ("category", RVal.str cat),
            ("base_currency", RVal.str base_currency),
            ("has_conversion", RVal.bool amount_in_base.isSome)])
    -- Handle: show_summary
    else if intent = "show_summary" then
      let p := lower (strip (pyOrS args.period "week"))
      let rng := period_to_range p now
      let items := query_by_ts_range st rng.1 rng.2.1
      let r := summaryFold base_currency items
      (st, Reply.rendered reply_lang "summary"
        [("label", RVal.str rng.2.2), ("base_currency", RVal.str base_currency),
         ("income", RVal.num r.1), ("expense", RVal.num r.2.1),
         ("net", RVal.num (r.1 - r.2.1)), ("excluded", RVal.currencyMap r.2.2)])
    -- Handle: show_category
    else if intent = "show_category" then
      let p := lower (strip (pyOrS args.period "week"))
      let cat := lower (strip (pyOrS args.category "other"))
      let kind := lower (strip (pyOrS args.kind "expense"))
      let rng := period_to_range p now
      let items := query_by_ts_range st rng.1 rng.2.1
      let r := categoryFold base_currency cat kind items
      (st, Reply.rendered reply_lang "category_total"
        [("label", RVal.str rng.2.2), ("category", RVal.str cat),
         ("kind", RVal.str kind), ("base_currency", RVal.str base_currency),
         ("total", RVal.num r.1), ("excluded", RVal.currencyMap r.2)])
    -- Handle: show_list
    else if intent = "show_list" then
      let limit := clampLimit args.limit
      let items := list_transactions st limit
      let simplified := items.map fun tx =>
        { type := tx.type, amount := tx.amount, currency := tx.currency,
          category := tx.category, description := tx.description : SimpleTx }
      (st, Reply.rendered reply_lang "list"
        [("items", RVal.items simplified), ("limit", RVal.int limit)])
    -- smalltalk / unknown
    else if intent = "smalltalk" then (st, Reply.rendered reply_lang "smalltalk" [])
    else if intent = "unknown" then (st, Reply.rendered reply_lang "unknown" [])
    -- fallback
    else (st, Reply.rendered reply_lang "unknown" [])

/-! Derived definitions used by the theorems below: the spec-side sums of
the summary property, and the concrete turn of the C2 witness. -/

/-- Is a stored transaction counted as income by the summary loop
(`(tx.get("type") or "expense").lower() == "income"`)? -/
def isIncomeTx (tx : Tx) : Bool := lower (strOr tx.type "expense") = "income"

/-- The currency under which the summary loop accumulates an excluded
transaction (`tx.get("currency") or base_currency`). -/
def txCur (base : String) (tx : Tx) : String := strOr tx.currency base

/-- Lookup in the excluded map with default 0 (`excluded.get(cur, 0.0)`). -/
def lookup0 (m : List (String × ℚ)) (k : String) : ℚ :=
  match m with
  | [] => 0
  | kv :: rest => if kv.1 = k then kv.2 else lookup0 rest k

/-- Concrete route of the C2 witness turn: a log_expense with amount 3 in a
non-base currency. -/
def c2WitnessRoute : RouteMsg :=
  { intent := some "log_expense", args := { amount := some 3, currency := some "EUR" } }

/-- The record that turn appends: complete, with `amount_in_base` left null
rather than silently converted. -/
def c2WitnessTx : Tx :=
  { type := "expense", amount := 3, currency := "EUR", base_currency := "USD",
    amount_in_base := none, category := "other", description := "abc", language := "en",
    created_at := 7 }

/-! ## Claim C9: the numeric-literal scanners -/

theorem scanPA_none_of_nodigit (l : List Char) (h : ∀ c ∈ l, c.isDigit = false) :
    ∀ prev, scanPA prev l = none := by
  induction l with
  | nil => intro prev; rfl
  | cons c cs ih =>
    intro prev
    have hc := h c (List.mem_cons_self c cs)
    have hcs : ∀ x ∈ cs, x.isDigit = false := fun x hx => h x (List.mem_cons_of_mem _ hx)
    have hstep : scanPA prev (c :: cs) = scanPA false cs := by
      rw [scanPA]; simp [hc]
    rw [hstep, ih hcs]

theorem scanEA_none_of_nodigit (l : List Char) (h : ∀ c ∈ l, c.isDigit = false) :
    scanEA l = none := by
  induction l with
  | nil => rfl
  | cons c cs ih =>
    have hc := h c (List.mem_cons_self c cs)
    have hcs : ∀ x ∈ cs, x.isDigit = false := fun x hx => h x (List.mem_cons_of_mem _ hx)
    rw [scanEA]; simp [hc, ih hcs]

theorem commaMap_nodigit (t : String) (h : ∀ c ∈ t.data, c.isDigit = false) :
    ∀ c ∈ t.data.map (fun c => if c = ',' then '.' else c), c.isDigit = false := by
  intro c hc
  rcases List.mem_map.mp hc with ⟨a, ha, rfl⟩
  by_cases h' : a = ','
  · simp [h']
  · simp [h', h a ha]

/-- C9, counterexample.  The spec describes one "numeric-literal scanner"
returning "the first standalone number" of the text, but the two
implementations disagree: on the single standalone integer `1234567890`,
`utils.parse_amount` (whose regex caps the integer part at 9 digits and
whose look-arounds then reject every split of a longer run) finds no amount
at all, while `parser._extract_amount` (whose `\d+` is unbounded) returns
it — so no single "first standalone number" description is true of both,
and in particular `parse_amount` misses a standalone integer. -/
theorem c9_scanners_disagree_on_ten_digits :
    parse_amount "1234567890" = none
    ∧ extract_amount "1234567890" = some 1234567890 := by
  exact ⟨rfl, rfl⟩

/-- C9, amended: each scanner returns the first number matched by its own
regex, treating both `.` and `,` as the decimal separator, and returns no
amount when the text has no digits at all.  `parse_amount` matches the
first digit run of 1-9 digits not adjacent to further digits, taking a
fraction only when exactly 1 or 2 digits follow the separator;
`_extract_amount` captures the first digit run of any length and up to the
first two fraction digits even when more follow. -/
theorem c9_amended_scanner_behaviors :
    (∀ t : String, (∀ c ∈ t.data, c.isDigit = false) →
      parse_amount t = none ∧ extract_amount t = none)
    ∧ parse_amount "5,5" = some (11 / 2)
    ∧ extract_amount "5,5" = some (11 / 2)
    ∧ parse_amount "12.345" = some 12
    ∧ extract_amount "12.345" = some (617 / 50)
    ∧ parse_amount "1234567890 7" = some 7 := by
  refine ⟨?_, ?_, ?_, rfl, ?_, rfl⟩
  · intro t h
    refine ⟨scanPA_none_of_nodigit _ (commaMap_nodigit t h) false, scanEA_none_of_nodigit _ h⟩
  · have h : parse_amount "5,5" = some ((5 : ℚ) + (5 : ℚ) / 10 ^ 1) := rfl
    rw [h]; norm_num
  · have h : extract_amount "5,5" = some ((5 : ℚ) + (5 : ℚ) / 10 ^ 1) := rfl
    rw [h]; norm_num
  · have h : extract_amount "12.345" = some ((12 : ℚ) + (34 : ℚ) / 10 ^ 2) := rfl
    rw [h]; norm_num

/-- C9, witness: the no-digit clause of the amended theorem at a concrete
text. -/
theorem c9_amended_witness :
    parse_amount "кофе и чай" = none ∧ extract_amount "кофе и чай" = none :=
  c9_amended_scanner_behaviors.1 "кофе и чай" (by decide)

/-! ## Claim C6: the delegated resolver's safe default -/

/-- C6, counterexample.  Service output `"42"` is valid JSON but not the
expected object shape; `route_message` returns it unchanged instead of the
safe default, so "not parseable as the expected JSON shape" does not imply
the `unknown` default. -/
theorem c6_wrong_shape_returned_unchanged :
    route_message (some "42") (fun s => if s = "42" then some (Json.num 42) else none)
      = Json.num 42
    ∧ lookupStrField (Json.num 42) "action" = none
    ∧ lookupStrField routerFallbackJson "action" = some "unknown" :=
  ⟨rfl, rfl, rfl⟩

/-- C6, amended: when the service output is empty (or the attribute is
absent), or when `json.loads` fails on it, `route_message` returns the
fixed safe-default object whose action is `"unknown"` with a short generic
clarification, and no exception escapes (the embedding is total); output
that parses as JSON is returned as-is, whatever its shape. -/
theorem c6_amended_default_on_empty_or_unparseable :
    ∀ (loads : String → Option Json) (txt : Option String),
      ((txt = none ∨ txt = some "") → route_message txt loads = routerFallbackJson)
      ∧ (∀ s, txt = some s → s ≠ "" → loads s = none →
          route_message txt loads = routerFallbackJson)
      ∧ (∀ s j, txt = some s → s ≠ "" → loads s = some j → route_message txt loads = j)
      ∧ lookupStrField routerFallbackJson "action" = some "unknown" := by
  intro loads txt
  refine ⟨?_, ?_, ?_, rfl⟩
  · rintro (rfl | rfl)
    · rfl
    · rfl
  · rintro s rfl hs hl
    simp only [route_message, if_neg hs, hl]
  · rintro s j rfl hs hl
    simp only [route_message, if_neg hs, hl]

/-- C6, witness: unparseable output at a concrete input. -/
theorem c6_amended_witness :
    route_message (some "not json at all") (fun _ => none) = routerFallbackJson :=
  (c6_amended_default_on_empty_or_unparseable (fun _ => none) (some "not json at all")).2.1
    "not json at all" rfl (by decide) rfl

/-! ## Claim C8: the reply renderer's fail-safe -/

/-- C8, counterexample.  The `try` in brain.render_reply wraps only the JSON
handling, not the service call: when the service raises, the exception
propagates out of `render_reply` instead of producing `"OK."`. -/
theorem c8_service_exception_propagates :
    render_reply "en" "summary" [] (Except.error ()) (fun _ => none) = Except.error ()
    ∧ (Except.error () : Except Unit String) ≠ Except.ok "OK." := by
  refine ⟨rfl, by simp⟩

theorem pyOrS_some_empty (s : String) : pyOrS (some s) "" = s := by
  by_cases h : s = "" <;> simp [pyOrS, h]

/-- C8, amended: when the service call itself raises, the exception
propagates to the caller; when the call succeeds, `render_reply` returns
the fixed static string `"OK."` for empty output, for output `json.loads`
cannot parse, and for parsed values that are not an object carrying a
string under `"text"`. -/
theorem c8_amended_static_fallback :
    ∀ (language action : String) (data : List (String × RVal)) (loads : String → Option Json),
      (∀ e, render_reply language action data (Except.error e) loads = Except.error e)
      ∧ (loads "" = none →
          render_reply language action data (Except.ok none) loads = Except.ok "OK."
          ∧ render_reply language action data (Except.ok (some "")) loads = Except.ok "OK.")
      ∧ (∀ s, loads (strip s) = none →
          render_reply language action data (Except.ok (some s)) loads = Except.ok "OK.")
      ∧ (∀ s j, loads (strip s) = some j → (∀ kvs, j ≠ Json.obj kvs) →
          render_reply language action data (Except.ok (some s)) loads = Except.ok "OK.") := by
  intro language action data loads
  refine ⟨fun e => rfl, fun h0 => ⟨?_, ?_⟩, ?_, ?_⟩
  · simp only [render_reply, pyOrS]
    rw [show strip "" = "" from rfl, h0]
  · simp only [render_reply, pyOrS_some_empty]
    rw [show strip "" = "" from rfl, h0]
  · intro s hl
    simp only [render_reply, pyOrS_some_empty, hl]
  · intro s j hl hj
    cases j with
    | obj kvs => exact absurd rfl (hj kvs)
    | null => simp only [render_reply, pyOrS_some_empty, hl]
    | bool b => simp only [render_reply, pyOrS_some_empty, hl]
    | num q => simp only [render_reply, pyOrS_some_empty, hl]
    | str s' => simp only [render_reply, pyOrS_some_empty, hl]
    | arr l => simp only [render_reply, pyOrS_some_empty, hl]

/-- C8, witness: unparseable service output at a concrete input yields the
static `"OK."`. -/
theorem c8_amended_witness :
    render_reply "en" "logged" [] (Except.ok (some "><garbage")) (fun _ => none)
      = Except.ok "OK." :=
  ((c8_amended_static_fallback "en" "logged" [] (fun _ => none)).2.2.1 "><garbage" rfl)

/-! ## Claim C3: amount without keywords -/

/-- C3, counterexample.  "abc 100" has a parseable amount and matches no
income, expense, or category keyword, yet parse_intent classifies it as an
expense transaction instead of asking expense-or-income; the clarification
is reserved for messages that contain nothing but the amount. -/
theorem c3_amount_without_keywords_guesses_expense :
    (parse_intent (2024, 1, 15) "abc 100").name = "add_transaction"
    ∧ (parse_intent (2024, 1, 15) "abc 100").needs_clarification = false
    ∧ (parse_intent (2024, 1, 15) "abc 100").payload.type = some "expense"
    ∧ extract_amount "abc 100" = some 100
    ∧ containsAny (lower "abc 100") INCOME_WORDS = false
    ∧ containsAny (lower "abc 100") EXPENSE_WORDS = false
    ∧ (CATEGORY_HINTS.all fun p => p.2.all fun hint => !(pyIn hint (lower "abc 100"))) = true :=
  ⟨rfl, rfl, rfl, rfl, rfl, rfl, rfl⟩

/-- C3, amended: with no delete, confirmation or show phrase present and a
parseable amount found, parse_intent asks "expense or income?" exactly when
deleting the money tokens leaves nothing; any other text makes it guess —
income keywords, then expense keywords, then expense by default. -/
theorem c3_amended_clarify_only_bare_amount :
    ∀ (today : Int × Int × Int) (text0 : String),
      deleteAllHit (lower (strip text0)) = false →
      confirmHit (lower (strip text0)) = false →
      showHit (lower (strip text0)) = false →
      ∀ amt, extract_amount (strip text0) = some amt →
      ((stripL (subMoney [] (strip text0).data)).isEmpty = true →
        parse_intent today text0
          = { name := "clarify_transaction", payload := { amount := some amt },
              needs_clarification := true,
              clarification_question := "Это расход или доход? Скажи одним словом: «расход» или «доход»." })
      ∧ ((stripL (subMoney [] (strip text0).data)).isEmpty = false →
          containsAny (lower (strip text0)) INCOME_WORDS = false →
          containsAny (lower (strip text0)) EXPENSE_WORDS = false →
          parse_intent today text0
            = { name := "add_transaction",
                payload := { type := some "expense", amount := some amt,
                             currency := some "USD",
                             category := some (guess_category (strip text0)),
                             note := some (strip text0) } }) := by
  intro today text0 hdel hconf hshow amt ham
  constructor
  · intro hempty
    simp only [parse_intent, hdel, hconf, hshow, ham, hempty]
    simp
  · intro hempty hinc hexp
    simp only [parse_intent, hdel, hconf, hshow, ham, hempty]
    simp only [guess_type, hinc, hexp]
    simp

/-- C3, witness: "100" alone is clarified; "abc 100" is typed as expense. -/
theorem c3_amended_witness :
    parse_intent (2024, 1, 15) "100"
      = { name := "clarify_transaction", payload := { amount := some 100 },
          needs_clarification := true,
          clarification_question := "Это расход или доход? Скажи одним словом: «расход» или «доход»." }
    ∧ parse_intent (2024, 1, 15) "abc 100"
      = { name := "add_transaction",
          payload := { type := some "expense", amount := some 100,
                       currency := some "USD",
                       category := some (guess_category (strip "abc 100")),
                       note := some (strip "abc 100") } } :=
  ⟨(c3_amended_clarify_only_bare_amount (2024, 1, 15) "100"
      (by decide) (by decide) (by decide) 100 rfl).1 (by decide),
   (c3_amended_clarify_only_bare_amount (2024, 1, 15) "abc 100"
      (by decide) (by decide) (by decide) 100 rfl).2 (by decide) (by decide) (by decide)⟩

/-! ## Claim C4: the resolvers' priority order -/

/-- C4, counterexample.  In FallbackRouter.route the HELP/greeting keywords
are tested before the delete phrases: a message carrying both a delete
phrase ("удали" + "данные") and a parseable number is classified HELP, not
delete — so delete-intent phrases are not checked first in this resolver. -/
theorem c4_help_shadows_delete_in_fallback :
    FallbackRouter.route "привет, удали все данные, вот 100" = { intent := "HELP" }
    ∧ deleteHit (lower (clean_text "привет, удали все данные, вот 100")) = true
    ∧ parse_amount (clean_text "привет, удали все данные, вот 100") = some 100 :=
  ⟨rfl, rfl, rfl⟩

/-- C4, amended: parser.parse_intent does test its checks in the claimed
fixed order — delete phrases (and the delete-confirmation phrase) first, so
delete wins over a coincidental number, then show/summary phrases, then a
parseable amount, and otherwise unknown.  FallbackRouter.route follows the
same relative order, but only after a HELP/greeting keyword test that runs
before the delete check, and with an ADVICE keyword test between
show/summary and the amount check. -/
theorem c4_amended_priority_order :
    (∀ (today : Int × Int × Int) (text0 : String),
      (deleteAllHit (lower (strip text0)) = true →
        (parse_intent today text0).name = "delete_all_request")
      ∧ (deleteAllHit (lower (strip text0)) = false →
         confirmHit (lower (strip text0)) = false →
         showHit (lower (strip text0)) = true →
         (parse_intent today text0).name = "show_summary")
      ∧ (deleteAllHit (lower (strip text0)) = false →
         confirmHit (lower (strip text0)) = false →
         showHit (lower (strip text0)) = false →
         (extract_amount (strip text0)).isSome = true →
         ((parse_intent today text0).name = "clarify_transaction"
          ∨ (parse_intent today text0).name = "add_transaction"))
      ∧ (deleteAllHit (lower (strip text0)) = false →
         confirmHit (lower (strip text0)) = false →
         showHit (lower (strip text0)) = false →
         extract_amount (strip text0) = none →
         (parse_intent today text0).name = "unknown"))
    ∧ (∀ text : String,
      (helpHit (lower (clean_text text)) = false →
       deleteHit (lower (clean_text text)) = true →
       (FallbackRouter.route text).intent = "DELETE_DATA")
      ∧ (helpHit (lower (clean_text text)) = false →
         deleteHit (lower (clean_text text)) = false →
         showHitFB (lower (clean_text text)) = true →
         (FallbackRouter.route text).intent = "SHOW")
      ∧ (helpHit (lower (clean_text text)) = false →
         deleteHit (lower (clean_text text)) = false →
         showHitFB (lower (clean_text text)) = false →
         summaryHitFB (lower (clean_text text)) = true →
         (FallbackRouter.route text).intent = "SUMMARY")
      ∧ (helpHit (lower (clean_text text)) = false →
         deleteHit (lower (clean_text text)) = false →
         showHitFB (lower (clean_text text)) = false →
         summaryHitFB (lower (clean_text text)) = false →
         adviceHitFB (lower (clean_text text)) = false →
         (parse_amount (clean_text text)).isSome = true →
         (FallbackRouter.route text).intent = "LOG")
      ∧ (helpHit (lower (clean_text text)) = false →
         deleteHit (lower (clean_text text)) = false →
         showHitFB (lower (clean_text text)) = false →
         summaryHitFB (lower (clean_text text)) = false →
         adviceHitFB (lower (clean_text text)) = false →
         parse_amount (clean_text text) = none →
         (FallbackRouter.route text).intent = "UNKNOWN")) := by
  constructor
  · intro today text0
    refine ⟨?_, ?_, ?_, ?_⟩
    · intro hdel
      simp [parse_intent, hdel]
    · intro hdel hconf hshow
      rcases hpp : parse_period today (strip text0) with _ | ⟨d1, rest⟩ <;>
        simp [parse_intent, hdel, hconf, hshow, hpp]
    · intro hdel hconf hshow hamt
      rcases ham : extract_amount (strip text0) with _ | amt
      · rw [ham] at hamt; simp at hamt
      · by_cases hempty : (stripL (subMoney [] (strip text0).data)).isEmpty = true
        · left
          simp [parse_intent, hdel, hconf, hshow, ham, hempty]
        · right
          simp only [Bool.not_eq_true] at hempty
          simp [parse_intent, hdel, hconf, hshow, ham, hempty]
    · intro hdel hconf hshow ham
      simp [parse_intent, hdel, hconf, hshow, ham]
  · intro text
    refine ⟨?_, ?_, ?_, ?_, ?_⟩
    · intro hhelp hdel
      simp [FallbackRouter.route, hhelp, hdel]
    · intro hhelp hdel hshow
      simp [FallbackRouter.route, hhelp, hdel, hshow]
    · intro hhelp hdel hshow hsum
      simp [FallbackRouter.route, hhelp, hdel, hshow, hsum]
    · intro hhelp hdel hshow hsum hadv hamt
      rcases ham : parse_amount (clean_text text) with _ | amt
      · rw [ham] at hamt; simp at hamt
      · simp only [FallbackRouter.route, hhelp, hdel, hshow, hsum, hadv, ham]
        simp only [Bool.false_eq_true, if_false]
        repeat' split
        all_goals rfl
    · intro hhelp hdel hshow hsum hadv ham
      simp [FallbackRouter.route, hhelp, hdel, hshow, hsum, hadv, ham]

/-- C4, witness: the delete-first order of parse_intent on a message with
both a delete phrase and a number, and the delete classification of the
fallback router on a help-free delete message. -/
theorem c4_amended_witness :
    (parse_intent (2024, 1, 15) "удали всё 100").name = "delete_all_request"
    ∧ (FallbackRouter.route "удали все данные").intent = "DELETE_DATA" :=
  ⟨(c4_amended_priority_order.1 (2024, 1, 15) "удали всё 100").1 (by decide),
   (c4_amended_priority_order.2 "удали все данные").1 (by decide) (by decide)⟩

/-! ## Claim C2: what reaches the persistent ledger -/

set_option maxHeartbeats 2000000 in
theorem normalize_currency_ne_empty (c : String) : normalize_currency c ≠ "" := by
  intro h
  simp only [normalize_currency] at h
  generalize upper (strip c) = u at h
  split_ifs at h <;>
    first
      | exact absurd h (by decide)
      | exact absurd h (by assumption)

/-- C2, counterexample.  The log branch checks only that the resolver's
amount is non-null — never that it is positive: a turn whose args carry
amount `-5` appends a transaction with amount `-5` to the ledger. -/
theorem c2_nonpositive_amount_persisted :
    ((handle_message { base_currency := some "USD" } "abc"
        { intent := some "log_expense", args := { amount := some (-5) } } 7).1.tx.map
      Tx.amount) = [-5]
    ∧ ¬(0 < (-5 : ℚ)) :=
  ⟨rfl, by norm_num⟩

/-- C2, amended: a record is appended to the ledger only by the
log_expense / log_income branch, and only when the resolver supplied a
non-null amount; the appended record is the fully populated payload — type
expense or income, a never-empty (but otherwise unvalidated) currency, a
defaulted category, and the storage-assigned timestamp — while the amount
is persisted exactly as given, with no positivity check. -/
theorem c2_amended_append_characterization :
    ∀ (st : UserDoc) (text : String) (route : RouteMsg) (now : Int) (p : Tx),
      p ∈ (handle_message st text route now).1.tx → p ∉ st.tx →
      ∃ amt, route.args.amount = some amt
        ∧ (pyOrS route.intent "unknown" = "log_expense"
           ∨ pyOrS route.intent "unknown" = "log_income")
        ∧ p = logPayload st text route now amt
        ∧ (p.type = "expense" ∨ p.type = "income")
        ∧ p.amount = amt
        ∧ p.currency ≠ ""
        ∧ p.created_at = now := by
  intro st text route now p hmem hnew
  simp only [handle_message] at hmem
  by_cases c1 : st.pending = some "delete_account_wait_phrase"
  · rw [if_pos c1] at hmem
    by_cases c2 : pyIn "DELETE MY ACCOUNT" text = true
    · rw [if_pos c2] at hmem
      by_cases c3 : (!(can_delete_account st.last_delete_at now).1
          && decide ((can_delete_account st.last_delete_at now).2 ≠ 0)) = true
      · rw [if_pos c3] at hmem
        simp at hmem
        exact absurd hmem hnew
      · rw [if_neg c3] at hmem
        simp [deletedDoc] at hmem
    · rw [if_neg c2] at hmem
      simp at hmem
      exact absurd hmem hnew
  · rw [if_neg c1] at hmem
    by_cases c4 : (!truthyS st.base_currency
        && decide (pyOrS route.intent "unknown" ≠ "set_base_currency")) = true
    · rw [if_pos c4] at hmem
      simp at hmem
      exact absurd hmem hnew
    · rw [if_neg c4] at hmem
      by_cases c5 : pyOrS route.intent "unknown" = "set_language"
      · rw [if_pos c5] at hmem
        simp only [apply_ite (fun x : UserDoc × Reply => x.1.tx)] at hmem
        simp at hmem
        exact absurd hmem hnew
      · rw [if_neg c5] at hmem
        by_cases c6 : pyOrS route.intent "unknown" = "set_base_currency"
        · rw [if_pos c6] at hmem
          simp only [apply_ite (fun x : UserDoc × Reply => x.1.tx)] at hmem
          simp at hmem
          exact absurd hmem hnew
        · rw [if_neg c6] at hmem
          by_cases c7 : pyOrS route.intent "unknown" = "delete_account"
          · rw [if_pos c7] at hmem
            by_cases c8 : route.args.confirm = true
            · rw [if_pos c8] at hmem
              by_cases c9 : (!(can_delete_account st.last_delete_at now).1
                  && decide ((can_delete_account st.last_delete_at now).2 ≠ 0)) = true
              · rw [if_pos c9] at hmem
                simp at hmem
                exact absurd hmem hnew
              · rw [if_neg c9] at hmem
                simp [deletedDoc] at hmem
            · rw [if_neg c8] at hmem
              simp at hmem
              exact absurd hmem hnew
          · rw [if_neg c7] at hmem
            by_cases c10 : route.needs_clarification = true
            · rw [if_pos c10] at hmem
              simp at hmem
              exact absurd hmem hnew
            · rw [if_neg c10] at hmem
              by_cases c11 : (decide (pyOrS route.intent "unknown" = "log_expense")
                  || decide (pyOrS route.intent "unknown" = "log_income")) = true
              · rw [if_pos c11] at hmem
                cases ha : route.args.amount with
                | none =>
                  rw [ha] at hmem
                  simp at hmem
                  exact absurd hmem hnew
                | some amt =>
                  rw [ha] at hmem
                  simp at hmem
                  rcases hmem with hmem | hmem
                  · exact absurd hmem hnew
                  · refine ⟨amt, rfl, by simpa using c11, hmem, ?_, ?_, ?_, ?_⟩
                    · rw [hmem]
                      unfold logPayload
                      by_cases hle : pyOrS route.intent "unknown" = "log_expense" <;>
                        simp [hle]
                    · rw [hmem]
                      rfl
                    · rw [hmem]
                      exact normalize_currency_ne_empty _
                    · rw [hmem]
                      rfl
              · rw [if_neg c11] at hmem
                simp only [apply_ite (fun x : UserDoc × Reply => x.1.tx)] at hmem
                simp at hmem
                exact absurd hmem hnew

/-- C2, witness: the amended characterization applied to that concrete
turn. -/
theorem c2_amended_witness :
    ∃ amt, c2WitnessRoute.args.amount = some amt
      ∧ (pyOrS c2WitnessRoute.intent "unknown" = "log_expense"
         ∨ pyOrS c2WitnessRoute.intent "unknown" = "log_income")
      ∧ c2WitnessTx = logPayload { base_currency := some "USD" } "abc" c2WitnessRoute 7 amt
      ∧ (c2WitnessTx.type = "expense" ∨ c2WitnessTx.type = "income")
      ∧ c2WitnessTx.amount = amt
      ∧ c2WitnessTx.currency ≠ ""
      ∧ c2WitnessTx.created_at = 7 :=
  c2_amended_append_characterization { base_currency := some "USD" } "abc" c2WitnessRoute 7
    c2WitnessTx (by decide) (by decide)

/-! ## Claim C10: the show_list limit clamp -/

/-- C10: whatever limit the resolver's arguments carry — absent, zero
(falsy, so replaced by the default 20), negative or huge — the limit used
to fetch is clamped into `[1, 50]`, at most that many transactions are
fetched, and the show_list branch replies with exactly the fetched
transactions and the clamped limit, without mutating state. -/
theorem c10_show_list_limit_clamped :
    (∀ (a : Option Int) (st : UserDoc),
      1 ≤ clampLimit a ∧ clampLimit a ≤ 50
      ∧ (list_transactions st (clampLimit a)).length ≤ 50)
    ∧ (∀ (st : UserDoc) (text : String) (route : RouteMsg) (now : Int),
        st.pending ≠ some "delete_account_wait_phrase" →
        truthyS st.base_currency = true →
        pyOrS route.intent "unknown" = "show_list" →
        route.needs_clarification = false →
        (handle_message st text route now).2
          = Reply.rendered (replyLangFor st route) "list"
              [("items", RVal.items ((list_transactions st (clampLimit route.args.limit)).map
                  fun tx => { type := tx.type, amount := tx.amount, currency := tx.currency,
                              category := tx.category, description := tx.description })),
               ("limit", RVal.int (clampLimit route.args.limit))]
        ∧ (handle_message st text route now).1 = st) := by
  constructor
  · intro a st
    have h2 : clampLimit a ≤ 50 := by
      unfold clampLimit
      exact max_le (by norm_num) (min_le_right _ _)
    refine ⟨le_max_left _ _, h2, ?_⟩
    simp only [list_transactions, List.length_take, List.length_reverse]
    omega
  · intro st text route now hp hb hi hnc
    constructor <;>
      simp +decide [handle_message, hp, hb, hi, hnc]

/-- C10, witness for the handle_message clause: a concrete show_list turn
with an oversized limit. -/
theorem c10_witness :
    (handle_message { base_currency := some "USD" } "show me"
        { intent := some "show_list", args := { limit := some 1000 } } 5).2
      = Reply.rendered "en" "list" [("items", RVal.items []), ("limit", RVal.int 50)]
    ∧ (handle_message { base_currency := some "USD" } "show me"
        { intent := some "show_list", args := { limit := some 1000 } } 5).1
      = { base_currency := some "USD" } := by
  have h := c10_show_list_limit_clamped.2 { base_currency := some "USD" } "show me"
    { intent := some "show_list", args := { limit := some 1000 } } 5
    (by decide) (by decide) (by decide) (by decide)
  exact ⟨h.1.trans (by decide), h.2⟩

/-! ## Claim C1: the pending-delete confirmation gate -/

/-- C1, code bug.  With a pending delete confirmation, brain.handle_message
tests `"DELETE MY ACCOUNT" in text` — a case-sensitive substring check —
although its own comment says "user must send exact phrase" and the spec
requires a case-insensitive exact match.  A message that merely contains
the phrase deletes the whole account, while the lower-case exact phrase
does not confirm; an exact type-in of the phrase still works. -/
theorem c1_substring_confirmation_deletes :
    (handle_message
        { base_currency := some "USD", pending := some "delete_account_wait_phrase",
          tx := [{ type := "expense", amount := 5, currency := "USD", base_currency := "USD",
                   amount_in_base := some 5, category := "other", description := "coffee",
                   language := "en", created_at := 10 }] }
        "I do not want to DELETE MY ACCOUNT today" {} 1000)
      = (deletedDoc 1000, Reply.rendered "en" "delete_account_done" [])
    ∧ lower "I do not want to DELETE MY ACCOUNT today" ≠ lower "DELETE MY ACCOUNT"
    ∧ (handle_message
        { base_currency := some "USD", pending := some "delete_account_wait_phrase",
          tx := [{ type := "expense", amount := 5, currency := "USD", base_currency := "USD",
                   amount_in_base := some 5, category := "other", description := "coffee",
                   language := "en", created_at := 10 }] }
        "delete my account" {} 1000).1.pending = some "delete_account_wait_phrase"
    ∧ (handle_message
        { base_currency := some "USD", pending := some "delete_account_wait_phrase",
          tx := [{ type := "expense", amount := 5, currency := "USD", base_currency := "USD",
                   amount_in_base := some 5, category := "other", description := "coffee",
                   language := "en", created_at := 10 }] }
        "delete my account" {} 1000).2
      = Reply.rendered "en" "delete_account_need_phrase" [] := by
  exact ⟨rfl, by decide, rfl, rfl⟩

/-! ## Claim C5: the 24-hour delete cooldown -/

/-- C5: when the pending delete confirmation is answered with the
confirmation phrase, a deletion less than 24 hours after the recorded one
is refused — the ledger and the cooldown timestamp stay untouched and the
reply carries the remaining wait split into hours and minutes — while
after 24 hours, or with no recorded deletion, the account is deleted. -/
theorem c5_delete_cooldown_enforced :
    ∀ (st : UserDoc) (text : String) (route : RouteMsg) (now : Int),
      st.pending = some "delete_account_wait_phrase" →
      pyIn "DELETE MY ACCOUNT" text = true →
      (∀ l, st.last_delete_at = some l → now - l < 86400 →
        (handle_message st text route now).1.tx = st.tx
        ∧ (handle_message st text route now).1.last_delete_at = st.last_delete_at
        ∧ (handle_message st text route now).2
            = Reply.rendered (replyLangFor st route) "delete_account_blocked"
                [("hours", RVal.int ((86400 - (now - l)) / 3600)),
                 ("minutes", RVal.int ((86400 - (now - l)) % 3600 / 60))])
      ∧ (∀ l, st.last_delete_at = some l → 86400 ≤ now - l →
          (handle_message st text route now)
            = (deletedDoc now, Reply.rendered (replyLangFor st route) "delete_account_done" []))
      ∧ (st.last_delete_at = none →
          (handle_message st text route now)
            = (deletedDoc now, Reply.rendered (replyLangFor st route) "delete_account_done" [])) := by
  intro st text route now hp hin
  refine ⟨?_, ?_, ?_⟩
  · intro l hl hlt
    have h1 : ¬(86400 ≤ now - l) := by omega
    have h2 : 86400 - (now - l) ≠ 0 := by omega
    refine ⟨?_, ?_, ?_⟩ <;>
      simp [handle_message, hp, hin, can_delete_account, hl, h1, h2]
  · intro l hl hge
    simp [handle_message, hp, hin, can_delete_account, hl, hge]
  · intro hl
    simp [handle_message, hp, hin, can_delete_account, hl]

/-- C5, witness: a second confirmed deletion 1000 seconds after the first is
blocked with 23 hours 43 minutes remaining; the same confirmation 90000
seconds (25 hours) after the first deletes the account. -/
theorem c5_witness :
    (handle_message
        { base_currency := some "USD", pending := some "delete_account_wait_phrase",
          last_delete_at := some 0,
          tx := [{ type := "expense", amount := 5, currency := "USD", base_currency := "USD",
                   amount_in_base := some 5, category := "other", description := "coffee",
                   language := "en", created_at := 10 }] }
        "DELETE MY ACCOUNT" {} 1000).2
      = Reply.rendered "en" "delete_account_blocked"
          [("hours", RVal.int 23), ("minutes", RVal.int 43)]
    ∧ (handle_message
        { base_currency := some "USD", pending := some "delete_account_wait_phrase",
          last_delete_at := some 0, tx := [] }
        "DELETE MY ACCOUNT" {} 90000)
      = (deletedDoc 90000, Reply.rendered "en" "delete_account_done" []) := by
  constructor
  · have h := (c5_delete_cooldown_enforced
      { base_currency := some "USD", pending := some "delete_account_wait_phrase",
        last_delete_at := some 0,
        tx := [{ type := "expense", amount := 5, currency := "USD", base_currency := "USD",
                 amount_in_base := some 5, category := "other", description := "coffee",
                 language := "en", created_at := 10 }] }
      "DELETE MY ACCOUNT" {} 1000 rfl (by decide)).1 0 rfl (by decide)
    exact h.2.2.trans (by decide)
  · have h := (c5_delete_cooldown_enforced
      { base_currency := some "USD", pending := some "delete_account_wait_phrase",
        last_delete_at := some 0, tx := [] }
      "DELETE MY ACCOUNT" {} 90000 rfl (by decide)).2.1 0 rfl (by decide)
    exact h.trans (by decide)

/-! ## Claim C7: unconverted amounts are excluded from the totals -/

theorem lookup0_upsertAdd (m : List (String × ℚ)) (k k' : String) (v : ℚ) :
    lookup0 (upsertAdd m k v) k' = lookup0 m k' + (if k' = k then v else 0) := by
  induction m with
  | nil =>
    by_cases h : k' = k
    · subst h; simp [upsertAdd, lookup0]
    · have h' : ¬(k = k') := fun hh => h hh.symm
      simp [upsertAdd, lookup0, h, h']
  | cons kv rest ih =>
    by_cases h1 : kv.1 = k
    · by_cases h2 : kv.1 = k'
      · have hk : k' = k := h2.symm.trans h1
        subst hk
        simp [upsertAdd, lookup0, h1, h2]
      · have hk : ¬(k' = k) := fun hh => h2 (h1.trans hh.symm)
        have hk2 : ¬(k = k') := fun hh => h2 (h1.trans hh)
        simp [upsertAdd, lookup0, h1, h2, hk, hk2]
    · by_cases h2 : kv.1 = k'
      · have hk : ¬(k' = k) := fun hh => h1 (h2.trans hh)
        simp [upsertAdd, lookup0, h1, h2, hk]
      · simp [upsertAdd, lookup0, h1, h2, ih]

/-- The income total a transaction list contributes: only transactions with
a present base-currency amount and income type. -/
def incomeSum (items : List Tx) : ℚ :=
  ((items.filter fun tx => tx.amount_in_base.isSome && isIncomeTx tx).map
    fun tx => tx.amount_in_base.getD 0).sum

/-- The expense total: present base-currency amount, non-income type. -/
def expenseSum (items : List Tx) : ℚ :=
  ((items.filter fun tx => tx.amount_in_base.isSome && !isIncomeTx tx).map
    fun tx => tx.amount_in_base.getD 0).sum

/-- The excluded amount per currency: transactions without a base-currency
amount, keyed by their own currency, summed over their original amounts. -/
def excludedSum (base : String) (items : List Tx) (cur : String) : ℚ :=
  ((items.filter fun tx => tx.amount_in_base.isNone && txCur base tx = cur).map
    fun tx => tx.amount).sum

theorem summaryFold_go (base : String) (items : List Tx) :
    ∀ (a b : ℚ) (m : List (String × ℚ)),
      (items.foldl (sumStep base) (a, b, m)).1 = a + incomeSum items
      ∧ (items.foldl (sumStep base) (a, b, m)).2.1 = b + expenseSum items
      ∧ ∀ cur, lookup0 (items.foldl (sumStep base) (a, b, m)).2.2 cur
          = lookup0 m cur + excludedSum base items cur := by
  induction items with
  | nil => intro a b m; simp [incomeSum, expenseSum, excludedSum]
  | cons tx rest ih =>
    intro a b m
    cases hab : tx.amount_in_base with
    | none =>
      have hstep : sumStep base (a, b, m) tx = (a, b, upsertAdd m (txCur base tx) tx.amount) := by
        simp [sumStep, hab, txCur]
      rw [List.foldl_cons, hstep]
      refine ⟨?_, ?_, ?_⟩
      · rw [(ih a b _).1]
        simp [incomeSum, hab]
      · rw [(ih a b _).2.1]
        simp [expenseSum, hab]
      · intro cur
        rw [(ih a b _).2.2 cur, lookup0_upsertAdd]
        by_cases hc : txCur base tx = cur
        · simp [excludedSum, hab, hc]
          try ring
        · have hc' : ¬(cur = txCur base tx) := fun hh => hc hh.symm
          simp [excludedSum, hab, hc, hc']
          try ring
    | some ab =>
      by_cases hinc : isIncomeTx tx
      · have hstep : sumStep base (a, b, m) tx = (a + ab, b, m) := by
          simp [sumStep, hab]
          intro hne
          exact absurd (by simpa [isIncomeTx] using hinc) hne
        rw [List.foldl_cons, hstep]
        refine ⟨?_, ?_, ?_⟩
        · rw [(ih (a + ab) b m).1]
          simp [incomeSum, hab, hinc]
          ring
        · rw [(ih (a + ab) b m).2.1]
          simp [expenseSum, hab, hinc]
        · intro cur
          rw [(ih (a + ab) b m).2.2 cur]
          simp [excludedSum, hab]
      · have hne : lower (strOr tx.type "expense") ≠ "income" := by
          simpa [isIncomeTx] using hinc
        have hstep : sumStep base (a, b, m) tx = (a, b + ab, m) := by
          simp [sumStep, hab, hne]
        rw [List.foldl_cons, hstep]
        refine ⟨?_, ?_, ?_⟩
        · rw [(ih a (b + ab) m).1]
          simp [incomeSum, hab, hinc]
        · rw [(ih a (b + ab) m).2.1]
          simp [expenseSum, hab, hinc]
          ring
        · intro cur
          rw [(ih a (b + ab) m).2.2 cur]
          simp [excludedSum, hab]

/-- C7: the show_summary accumulation adds to the income and expense totals
only transactions whose base-currency amount is present; a transaction
without one contributes to neither total and is instead accumulated, under
its own currency, in the excluded map; and the show_summary reply reports
that map alongside the totals. -/
theorem c7_summary_segregates_unconverted :
    (∀ (base : String) (items : List Tx),
      (summaryFold base items).1 = incomeSum items
      ∧ (summaryFold base items).2.1 = expenseSum items
      ∧ ∀ cur, lookup0 (summaryFold base items).2.2 cur = excludedSum base items cur)
    ∧ (∀ (st : UserDoc) (text : String) (route : RouteMsg) (now : Int),
        st.pending ≠ some "delete_account_wait_phrase" →
        truthyS st.base_currency = true →
        pyOrS route.intent "unknown" = "show_summary" →
        route.needs_clarification = false →
        (handle_message st text route now).2
          = Reply.rendered (replyLangFor st route) "summary"
              [("label",
                RVal.str (period_to_range (lower (strip (pyOrS route.args.period "week"))) now).2.2),
               ("base_currency", RVal.str (pyOrS st.base_currency "USD")),
               ("income", RVal.num (summaryFold (pyOrS st.base_currency "USD")
                  (query_by_ts_range st
                    (period_to_range (lower (strip (pyOrS route.args.period "week"))) now).1
                    (period_to_range (lower (strip (pyOrS route.args.period "week"))) now).2.1)).1),
               ("expense", RVal.num (summaryFold (pyOrS st.base_currency "USD")
                  (query_by_ts_range st
                    (period_to_range (lower (strip (pyOrS route.args.period "week"))) now).1
                    (period_to_range (lower (strip (pyOrS route.args.period "week"))) now).2.1)).2.1),
               ("net", RVal.num ((summaryFold (pyOrS st.base_currency "USD")
                  (query_by_ts_range st
                    (period_to_range (lower (strip (pyOrS route.args.period "week"))) now).1
                    (period_to_range (lower (strip (pyOrS route.args.period "week"))) now).2.1)).1
                 - (summaryFold (pyOrS st.base_currency "USD")
                  (query_by_ts_range st
                    (period_to_range (lower (strip (pyOrS route.args.period "week"))) now).1
                    (period_to_range (lower (strip (pyOrS route.args.period "week"))) now).2.1)).2.1)),
               ("excluded", RVal.currencyMap (summaryFold (pyOrS st.base_currency "USD")
                  (query_by_ts_range st
                    (period_to_range (lower (strip (pyOrS route.args.period "week"))) now).1
                    (period_to_range (lower (strip (pyOrS route.args.period "week"))) now).2.1)).2.2)]
        ∧ (handle_message st text route now).1 = st) := by
  constructor
  · intro base items
    have h := summaryFold_go base items 0 0 []
    refine ⟨by simpa [summaryFold] using h.1, by simpa [summaryFold] using h.2.1, ?_⟩
    intro cur
    have := h.2.2 cur
    simpa [summaryFold, lookup0] using this
  · intro st text route now hp hb hi hnc
    constructor <;>
      simp +decide [handle_message, hp, hb, hi, hnc]

/-- C7, witness: a concrete show_summary turn over a ledger holding one
converted USD expense and one unconverted EUR expense satisfies every
hypothesis of the amended theorem's handle_message clause, and the turn
leaves the stored ledger unchanged. -/
theorem c7_witness :
    (handle_message
        { base_currency := some "USD",
          tx := [{ type := "expense", amount := 5, currency := "USD", base_currency := "USD",
                   amount_in_base := some 5, category := "other", description := "a",
                   language := "en", created_at := 10 },
                 { type := "expense", amount := 3, currency := "EUR", base_currency := "USD",
                   amount_in_base := none, category := "other", description := "b",
                   language := "en", created_at := 20 }] }
        "summary" { intent := some "show_summary" } 100).1
      = { base_currency := some "USD",
          tx := [{ type := "expense", amount := 5, currency := "USD", base_currency := "USD",
                   amount_in_base := some 5, category := "other", description := "a",
                   language := "en", created_at := 10 },
                 { type := "expense", amount := 3, currency := "EUR", base_currency := "USD",
                   amount_in_base := none, category := "other", description := "b",
                   language := "en", created_at := 20 }] } :=
  (c7_summary_segregates_unconverted.2
    { base_currency := some "USD",
      tx := [{ type := "expense", amount := 5, currency := "USD", base_currency := "USD",
               amount_in_base := some 5, category := "other", description := "a",
               language := "en", created_at := 10 },
             { type := "expense", amount := 3, currency := "EUR", base_currency := "USD",
               amount_in_base := none, category := "other", description := "b",
               language := "en", created_at := 20 }] }
    "summary" { intent := some "show_summary" } 100
    (by decide) (by decide) (by decide) (by decide)).2

end FinBot
